import Mathlib

/-!
Verification of the Data Cloud query service core: SQL string escaping,
dynamic query building, filter cleaning, result transformation, and the
query-execution service with its cached authorization context and
success/error response envelopes.  Definitions are shallow embeddings of
the JavaScript source in `src/lib/data-cloud-query-service.js` and
`src/lib/sql/queries.js`.
-/

/-- A JavaScript value, restricted to the shapes the service manipulates:
strings, integer-valued numbers, booleans, `null`, `undefined`, and arrays. -/
inductive JsVal : Type where
  | str : String → JsVal
  | num : Int → JsVal
  | bool : Bool → JsVal
  | null : JsVal
  | undef : JsVal
  | arr : List JsVal → JsVal

/-- A JavaScript object as an ordered association list of key/value pairs
(insertion order preserved, keys assumed distinct as in object literals). -/
abbrev JsObj : Type := List (String × JsVal)

mutual

/-- JavaScript `String(value)` coercion. -/
def jsToString : JsVal → String
  | JsVal.str s => s
  | JsVal.num n => toString n
  | JsVal.bool b => if b then "true" else "false"
  | JsVal.null => "null"
  | JsVal.undef => "undefined"
  | JsVal.arr l => jsArrJoin l

/-- `Array.prototype.toString`: elements joined by commas. -/
def jsArrJoin : List JsVal → String
  | [] => ""
  | [v] => jsElem v
  | v :: vs => jsElem v ++ "," ++ jsArrJoin vs

/-- One array element rendered inside a join; `null` and `undefined`
render as the empty string, per JavaScript `Array.prototype.join`. -/
def jsElem : JsVal → String
  | JsVal.null => ""
  | JsVal.undef => ""
  | JsVal.str s => s
  | JsVal.num n => toString n
  | JsVal.bool b => if b then "true" else "false"
  | JsVal.arr l => jsArrJoin l

end

/-- JavaScript truthiness for the modelled values. -/
def jsTruthy : JsVal → Bool
  | JsVal.str s => if s = "" then false else true
  | JsVal.num n => if n = 0 then false else true
  | JsVal.bool b => b
  | JsVal.null => false
  | JsVal.undef => false
  | JsVal.arr _ => true

/-- JavaScript property access `o.k` on an object: the bound value, or
`undefined` when the key is absent. -/
def jsGet (o : JsObj) (k : String) : JsVal :=
  match o with
  | [] => JsVal.undef
  | (k2, v) :: rest => if k2 = k then v else jsGet rest k

/-- JavaScript indexing `record[i]` on an array: out-of-range gives
`undefined`. -/
def jsIdx (record : List JsVal) (i : Nat) : JsVal :=
  record.getD i JsVal.undef

/-- The single-quote character. -/
def quoteChar : Char := Char.ofNat 39

/-- The backslash character. -/
def backslashChar : Char := Char.ofNat 92

/-- The NUL character (0x00). -/
def nulChar : Char := Char.ofNat 0

/-- The line-feed character. -/
def lfChar : Char := Char.ofNat 10

/-- The carriage-return character. -/
def crChar : Char := Char.ofNat 13

/-- The SUB character (0x1A, ctrl+Z). -/
def subChar : Char := Char.ofNat 26

/-- One global single-character regex replacement, `value.replace(/c/g, r)`:
every occurrence of `c` is replaced by the character list `r`; the
replacement text is not rescanned. -/
def replaceChar (c : Char) (r : List Char) : List Char → List Char
  | [] => []
  | x :: xs => if x = c then r ++ replaceChar c r xs else x :: replaceChar c r xs

/-- The six sequential replacements of `unifiedB2BQuery.escapeSqlString`,
in source order: quote doubling, backslash doubling, NUL removal,
line-feed, carriage-return and SUB escaping. -/
def escapeSteps (l : List Char) : List Char :=
  replaceChar subChar [backslashChar, 'Z']
    (replaceChar crChar [backslashChar, 'r']
      (replaceChar lfChar [backslashChar, 'n']
        (replaceChar nulChar []
          (replaceChar backslashChar [backslashChar, backslashChar]
            (replaceChar quoteChar [quoteChar, quoteChar] l)))))

/-- The six replacements applied to a whole string. -/
def escapeSixSteps (s : String) : String :=
  String.mk (escapeSteps s.data)

/-- Per-character substitution table equivalent to the six sequential
passes (used to state the escaping characterisation). -/
def escapeCharSpec (c : Char) : List Char :=
  if c = quoteChar then [quoteChar, quoteChar]
  else if c = backslashChar then [backslashChar, backslashChar]
  else if c = nulChar then []
  else if c = lfChar then [backslashChar, 'n']
  else if c = crChar then [backslashChar, 'r']
  else if c = subChar then [backslashChar, 'Z']
  else [c]

namespace unifiedB2BQuery

/-- `unifiedB2BQuery.escapeSqlString`: non-string values are returned as
`String(value)`; strings go through the six replacements. -/
def escapeSqlString (value : JsVal) : String :=
  match value with
  | JsVal.str s => escapeSixSteps s
  | v => jsToString v

/-- `unifiedB2BQuery.baseSql`. -/
def baseSql : String :=
  "SELECT ssot__Name__c, ssot__Number__c, ssot__AccountSource__c, ssot__AccountTypeId__c, ssot__CreatedDate__c, ssot__LastModifiedDate__c, ssot__ParentAccountId__c, ssot__Id__c FROM UnifiedssotAccountB2b__dlm"

/-- `Array.prototype.join(' AND ')`. -/
def joinAnd : List String → String
  | [] => ""
  | [c] => c
  | c :: cs => c ++ " AND " ++ joinAnd cs

/-- `unifiedB2BQuery.buildQuery(filters)`: appends one WHERE condition per
truthy filter key, escaping the value, then a LIMIT clause. -/
def buildQuery (filters : JsObj) : String :=
  let whereConditions : List String := []
  let whereConditions :=
    if jsTruthy (jsGet filters "accountName") then
      whereConditions ++
        ["ssot__Name__c LIKE '%" ++ escapeSqlString (jsGet filters "accountName") ++ "%'"]
    else whereConditions
  let whereConditions :=
    if jsTruthy (jsGet filters "accountSource") then
      whereConditions ++
        ["ssot__AccountSource__c = '" ++ escapeSqlString (jsGet filters "accountSource") ++ "'"]
    else whereConditions
  let whereConditions :=
    if jsTruthy (jsGet filters "segment") then
      whereConditions ++
        ["ssot__AccountTypeId__c = '" ++ escapeSqlString (jsGet filters "segment") ++ "'"]
    else whereConditions
  let query := baseSql
  let query :=
    if whereConditions.length > 0 then
      query ++ " WHERE " ++ joinAnd whereConditions
    else query
  query ++ " LIMIT 100"

/-- A transformed unified B2B record with the eight named fields. -/
structure B2BRecord where
  name : JsVal
  number : JsVal
  accountSource : JsVal
  accountTypeId : JsVal
  createdDate : JsVal
  lastModifiedDate : JsVal
  parentAccountId : JsVal
  id : JsVal

/-- `unifiedB2BQuery.transform(records)`: positions 0..7 of each row map
to the eight named fields in SELECT order. -/
def transform (records : List (List JsVal)) : List B2BRecord :=
  records.map fun record =>
    { name := jsIdx record 0
      number := jsIdx record 1
      accountSource := jsIdx record 2
      accountTypeId := jsIdx record 3
      createdDate := jsIdx record 4
      lastModifiedDate := jsIdx record 5
      parentAccountId := jsIdx record 6
      id := jsIdx record 7 }

end unifiedB2BQuery

namespace userEngagementQuery

/-- `userEngagementQuery.sql`. -/
def sql : String :=
  "SELECT \n    ClientSession__c, \n    CreatedDate__c, \n    EntityType__c, \n    EventIdentifier__c, \n    EventName__c\n  FROM UserEngagement__dlm \n  LIMIT 100"

/-- A transformed engagement record with the five named fields. -/
structure EngagementRecord where
  clientSession : JsVal
  createdDate : JsVal
  entityType : JsVal
  eventIdentifier : JsVal
  eventName : JsVal

/-- `userEngagementQuery.transform(records)`: positions 0..4 of each row
map to the five named fields in SELECT order. -/
def transform (records : List (List JsVal)) : List EngagementRecord :=
  records.map fun record =>
    { clientSession := jsIdx record 0
      createdDate := jsIdx record 1
      entityType := jsIdx record 2
      eventIdentifier := jsIdx record 3
      eventName := jsIdx record 4 }

end userEngagementQuery

/-- An authenticated Data Cloud context: `dataCloudContext.dataCloudApi.query`
executes a SQL string and resolves (`Except.ok`) with a response whose
`data` field may be absent (`none`), or rejects (`Except.error`). -/
structure Ctx where
  query : String → Except String (Option (List (List JsVal)))

/-- The service's environment: the AppLink SDK's
`applink.getAuthorization(connectionName)` outcome for this instance's
connection name, and the current clock reading used for `executedAt`. -/
structure Env where
  authorize : Except String Ctx
  now : String

/-- A query object: an optional `buildQuery` function (taking either an
explicit filter object or no argument, and possibly throwing), an
optional `sql` property, and a `transform` function that may throw. -/
structure QueryObject where
  buildQuery : Option (Option JsObj → Except String String)
  sql : Option String
  transform : List (List JsVal) → Except String (List JsVal)

/-- The mutable per-instance state of `DataCloudQueryService`: the cached
`_dataCloudContext` slot, plus a ghost counter of how many times the
underlying `getAuthorization` call has been invoked. -/
structure ServiceState where
  dataCloudContext : Option Ctx
  authCalls : Nat

/-- The state of a freshly constructed service instance. -/
def initialState : ServiceState :=
  { dataCloudContext := none, authCalls := 0 }

/-- `DataCloudQueryService.getDataCloudContext`: returns the cached
context if present, otherwise invokes `getAuthorization` and caches a
successful result; a rejection leaves the cache slot empty. -/
def getDataCloudContext (env : Env) (s : ServiceState) :
    Except String Ctx × ServiceState :=
  match s.dataCloudContext with
  | some c => (Except.ok c, s)
  | none =>
    match env.authorize with
    | Except.ok c =>
        (Except.ok c, { dataCloudContext := some c, authCalls := s.authCalls + 1 })
    | Except.error e =>
        (Except.error e, { s with authCalls := s.authCalls + 1 })

/-- Truthiness of the optional `sql` property (a missing property and the
empty string are both falsy). -/
def sqlTruthy : Option String → Bool
  | some s => if s = "" then false else true
  | none => false

/-- Query resolution inside `executeQuery`: `buildQuery(filters)` when
`buildQuery` is a function, else a truthy `sql`, else the
invalid-definition error. -/
def resolveQuery (queryObject : QueryObject) (filters : JsObj) :
    Except String String :=
  match queryObject.buildQuery with
  | some bq => bq (some filters)
  | none =>
    if sqlTruthy queryObject.sql then Except.ok (queryObject.sql.getD "")
    else Except.error "Query object must have either sql property or buildQuery method"

/-- The fallback query computed in `executeQuery`'s catch block:
`buildQuery()` with no arguments when `buildQuery` is a function (the
literal text `Query build failed` if that throws), else a truthy `sql`,
else nothing is assigned and the field stays `undefined`. -/
def fallbackQuery (queryObject : QueryObject) : Option String :=
  match queryObject.buildQuery with
  | some bq =>
    match bq none with
    | Except.ok q => some q
    | Except.error _ => some "Query build failed"
  | none =>
    if sqlTruthy queryObject.sql then queryObject.sql else none

/-- The response envelope of `executeQuery` and `executeQueryWithFilters`. -/
inductive Envelope : Type where
  | success (records : List JsVal) (totalRecords : Nat) (query : String)
      (filters : JsObj) (executedAt : String)
  | failure (error : String) (message : String) (query : Option String)
      (filters : JsObj)

/-- The error envelope assembled by `executeQuery`'s catch block. -/
def errorEnvelope (queryObject : QueryObject) (filters : JsObj) (msg : String) :
    Envelope :=
  Envelope.failure "Failed to execute Data Cloud query" msg
    (fallbackQuery queryObject) filters

/-- The resolved value of the `executeQuery` promise given the outcome of
the context fetch: every failure anywhere in the try block — including a
context-fetch rejection — is caught and converted to the error envelope,
so the result is always `Except.ok` of an envelope. -/
def executeQueryResult (env : Env) (ctxRes : Except String Ctx)
    (queryObject : QueryObject) (filters : JsObj) : Except String Envelope :=
  match ctxRes with
  | Except.error e => Except.ok (errorEnvelope queryObject filters e)
  | Except.ok ctx =>
    match resolveQuery queryObject filters with
    | Except.error e => Except.ok (errorEnvelope queryObject filters e)
    | Except.ok query =>
      match ctx.query query with
      | Except.error e => Except.ok (errorEnvelope queryObject filters e)
      | Except.ok responseData =>
        match queryObject.transform (responseData.getD []) with
        | Except.error e => Except.ok (errorEnvelope queryObject filters e)
        | Except.ok records =>
          Except.ok
            (Envelope.success records records.length query filters env.now)

/-- `DataCloudQueryService.executeQuery(queryObject, filters)`: the
resolved envelope (or rejection) together with the updated instance
state.  The only state mutation is the context-cache update performed by
`getDataCloudContext`. -/
def executeQuery (env : Env) (s : ServiceState) (queryObject : QueryObject)
    (filters : JsObj) : Except String Envelope × ServiceState :=
  let r := getDataCloudContext env s
  (executeQueryResult env r.1 queryObject filters, r.2)

/-- `DataCloudQueryService.cleanFilters(filters)`: keeps an entry iff its
value is not `undefined`, not `null` and not the empty string. -/
def keepFilterValue : JsVal → Bool
  | JsVal.undef => false
  | JsVal.null => false
  | JsVal.str s => if s = "" then false else true
  | _ => true

/-- `DataCloudQueryService.cleanFilters`. -/
def cleanFilters (filters : JsObj) : JsObj :=
  filters.filter fun kv => keepFilterValue kv.2

/-- `DataCloudQueryService.executeQueryWithFilters(queryObject, rawFilters)`:
cleans the filters, then delegates to `executeQuery`. -/
def executeQueryWithFilters (env : Env) (s : ServiceState)
    (queryObject : QueryObject) (rawFilters : JsObj) :
    Except String Envelope × ServiceState :=
  executeQuery env s queryObject (cleanFilters rawFilters)

/-- The response envelope of `executeRawQuery`. -/
inductive RawEnvelope : Type where
  | success (records : List JsVal) (totalRecords : Nat) (query : String)
      (executedAt : String)
  | failure (error : String) (message : String) (query : String)

/-- The resolved value of the `executeRawQuery` promise given the outcome
of the context fetch. -/
def executeRawQueryResult (env : Env) (ctxRes : Except String Ctx)
    (sql : String)
    (transformFn : Option (List (List JsVal) → Except String (List JsVal))) :
    Except String RawEnvelope :=
  match ctxRes with
  | Except.error e =>
      Except.ok (RawEnvelope.failure "Failed to execute raw Data Cloud query" e sql)
  | Except.ok ctx =>
    match ctx.query sql with
    | Except.error e =>
        Except.ok (RawEnvelope.failure "Failed to execute raw Data Cloud query" e sql)
    | Except.ok responseData =>
      match transformFn with
      | some f =>
        match f (responseData.getD []) with
        | Except.error e =>
            Except.ok
              (RawEnvelope.failure "Failed to execute raw Data Cloud query" e sql)
        | Except.ok records =>
            Except.ok (RawEnvelope.success records records.length sql env.now)
      | none =>
        let records := (responseData.getD []).map JsVal.arr
        Except.ok (RawEnvelope.success records records.length sql env.now)

/-- `DataCloudQueryService.executeRawQuery(sql, transformFn)`. -/
def executeRawQuery (env : Env) (s : ServiceState) (sql : String)
    (transformFn : Option (List (List JsVal) → Except String (List JsVal))) :
    Except String RawEnvelope × ServiceState :=
  let r := getDataCloudContext env s
  (executeRawQueryResult env r.1 sql transformFn, r.2)

/-- One externally visible operation on a service instance. -/
inductive Op : Type where
  | getCtx
  | exec (queryObject : QueryObject) (filters : JsObj)
  | execWithFilters (queryObject : QueryObject) (rawFilters : JsObj)
  | execRaw (sql : String)
      (transformFn : Option (List (List JsVal) → Except String (List JsVal)))

/-- The state reached after one operation. -/
def runOp (env : Env) (s : ServiceState) : Op → ServiceState
  | Op.getCtx => (getDataCloudContext env s).2
  | Op.exec qo f => (executeQuery env s qo f).2
  | Op.execWithFilters qo f => (executeQueryWithFilters env s qo f).2
  | Op.execRaw sql tf => (executeRawQuery env s sql tf).2

/-- The state reached after a sequence of operations on one instance. -/
def runOps (env : Env) (ops : List Op) (s : ServiceState) : ServiceState :=
  ops.foldl (runOp env) s

/-- Stage-local failure detector for `executeQuery` once a context is at
hand: the message of the first failure among query resolution, query
execution, and transformation, if any. -/
def localPipelineError (ctx : Ctx) (queryObject : QueryObject)
    (filters : JsObj) : Option String :=
  match resolveQuery queryObject filters with
  | Except.error m => some m
  | Except.ok q =>
    match ctx.query q with
    | Except.error m => some m
    | Except.ok responseData =>
      match queryObject.transform (responseData.getD []) with
      | Except.error m => some m
      | Except.ok _ => none

/-! ### Helper lemmas -/

/-- String concatenation is associative. -/
lemma strAppendAssoc (a b c : String) : a ++ b ++ c = a ++ (b ++ c) := by
  rcases a with ⟨la⟩; rcases b with ⟨lb⟩; rcases c with ⟨lc⟩
  show String.mk ((la ++ lb) ++ lc) = String.mk (la ++ (lb ++ lc))
  rw [List.append_assoc]

/-- A global single-character replacement distributes over append. -/
lemma replaceChar_append (c : Char) (r : List Char) (l1 l2 : List Char) :
    replaceChar c r (l1 ++ l2) = replaceChar c r l1 ++ replaceChar c r l2 := by
  induction l1 with
  | nil => rfl
  | cons x xs ih =>
      simp only [List.cons_append, replaceChar]
      by_cases hx : x = c
      · simp [hx, ih, List.append_assoc]
      · simp [hx, ih]

/-- The six-pass escape pipeline distributes over append. -/
lemma escapeSteps_append (l1 l2 : List Char) :
    escapeSteps (l1 ++ l2) = escapeSteps l1 ++ escapeSteps l2 := by
  simp [escapeSteps, replaceChar_append]

/-- On a single character, the six sequential passes agree with the
per-character substitution table. -/
lemma escapeSteps_single (c : Char) : escapeSteps [c] = escapeCharSpec c := by
  by_cases h1 : c = quoteChar
  · subst h1; decide
  by_cases h2 : c = backslashChar
  · subst h2; decide
  by_cases h3 : c = nulChar
  · subst h3; decide
  by_cases h4 : c = lfChar
  · subst h4; decide
  by_cases h5 : c = crChar
  · subst h5; decide
  by_cases h6 : c = subChar
  · subst h6; decide
  simp [escapeSteps, escapeCharSpec, replaceChar, h1, h2, h3, h4, h5, h6]

/-- The six sequential whole-string passes are exactly the per-character
substitution applied once to every character. -/
lemma escapeSteps_eq_flatMap (l : List Char) :
    escapeSteps l = l.flatMap escapeCharSpec := by
  induction l with
  | nil => rfl
  | cons c cs ih =>
      have h : escapeSteps (c :: cs) = escapeSteps [c] ++ escapeSteps cs :=
        escapeSteps_append [c] cs
      rw [h, escapeSteps_single, ih, List.flatMap_cons]

/-- `keepFilterValue` holds exactly on values other than `undefined`,
`null` and the empty string. -/
lemma keepFilterValue_iff (v : JsVal) :
    keepFilterValue v = true ↔
      (v ≠ JsVal.undef ∧ v ≠ JsVal.null ∧ v ≠ JsVal.str "") := by
  cases v with
  | str s =>
      simp only [keepFilterValue]
      by_cases h : s = "" <;> simp [h]
  | num n => simp [keepFilterValue]
  | bool b => simp [keepFilterValue]
  | null => simp [keepFilterValue]
  | undef => simp [keepFilterValue]
  | arr l => simp [keepFilterValue]

/-- Every operation changes the instance state exactly as the embedded
`getDataCloudContext` call does. -/
lemma runOp_state (env : Env) (s : ServiceState) (op : Op) :
    runOp env s op = (getDataCloudContext env s).2 := by
  cases op <;> rfl

/-! ### Concrete fixtures (stub contexts, environments and query objects) -/

/-- A stub context whose query resolves with one single-column row. -/
def ctxStub : Ctx :=
  { query := fun _ => Except.ok (some [[JsVal.str "A"]]) }

/-- A stub context whose query rejects with message `boom`. -/
def ctxBoom : Ctx :=
  { query := fun _ => Except.error "boom" }

/-- An environment whose authorization call rejects. -/
def envAuthFail : Env :=
  { authorize := Except.error "auth denied", now := "2024-01-01T00:00:00.000Z" }

/-- An environment whose authorization call resolves with `ctxStub`. -/
def envOk : Env :=
  { authorize := Except.ok ctxStub, now := "2024-01-01T00:00:00.000Z" }

/-- An environment whose authorization call resolves with `ctxBoom`. -/
def envBoom : Env :=
  { authorize := Except.ok ctxBoom, now := "2024-01-01T00:00:00.000Z" }

/-- A static-SQL query object whose transform wraps each row as an array
value. -/
def qoStatic : QueryObject :=
  { buildQuery := none
    sql := some "SELECT 1"
    transform := fun rows => Except.ok (rows.map JsVal.arr) }

/-- A query object with neither a `sql` property nor a `buildQuery`
function. -/
def qoBare : QueryObject :=
  { buildQuery := none
    sql := none
    transform := fun rows => Except.ok (rows.map JsVal.arr) }

/-- String append with the empty string on the right is the identity. -/
lemma strAppendEmpty (a : String) : a ++ "" = a := by
  rcases a with ⟨l⟩
  show String.mk (l ++ []) = String.mk l
  rw [List.append_nil]

/-- For every context-fetch outcome, the `executeQuery` promise resolves
with some envelope (it never rejects). -/
lemma executeQueryResult_isOk (env : Env) (r : Except String Ctx)
    (qo : QueryObject) (filters : JsObj) :
    ∃ envl, executeQueryResult env r qo filters = Except.ok envl := by
  rcases r with e | ctx
  · exact ⟨errorEnvelope qo filters e, rfl⟩
  · rcases hq : resolveQuery qo filters with m | q
    · exact ⟨errorEnvelope qo filters m, by simp [executeQueryResult, hq]⟩
    · rcases hx : ctx.query q with m | rd
      · exact ⟨errorEnvelope qo filters m, by simp [executeQueryResult, hq, hx]⟩
      · rcases ht : qo.transform (rd.getD []) with m | recs
        · exact ⟨errorEnvelope qo filters m,
            by simp [executeQueryResult, hq, hx, ht]⟩
        · exact ⟨Envelope.success recs recs.length q filters env.now,
            by simp [executeQueryResult, hq, hx, ht]⟩

/-! ### Claims -/

/-- C1, counterexample: with a rejecting authorize call, `executeQuery`
does NOT reject — it resolves with the `success: false` error envelope
carrying the authorization error message, contradicting the claim that
the authorization error propagates unconverted. -/
theorem claim_C1_counterexample :
    executeQuery envAuthFail initialState qoStatic [] =
      (Except.ok (Envelope.failure "Failed to execute Data Cloud query"
        "auth denied" (some "SELECT 1") []),
       { dataCloudContext := none, authCalls := 1 }) ∧
    (executeQuery envAuthFail initialState qoStatic []).1 ≠
      Except.error "auth denied" := by
  refine ⟨rfl, fun hc => ?_⟩
  have h2 : (executeQuery envAuthFail initialState qoStatic []).1 =
      Except.ok (Envelope.failure "Failed to execute Data Cloud query"
        "auth denied" (some "SELECT 1") []) := rfl
  rw [hc] at h2
  exact Except.noConfusion h2

/-- C1 (amended): when the underlying authorize call rejects and no
context is cached, `executeQueryWithFilters` does not reject; like every
other failure it is caught by `executeQuery`'s catch block and converted
into the `success: false` envelope whose message is the authorization
error message. -/
theorem claim_C1_amended (env : Env) (s : ServiceState) (qo : QueryObject)
    (rawFilters : JsObj) (msg : String)
    (hc : s.dataCloudContext = none) (ha : env.authorize = Except.error msg) :
    executeQueryWithFilters env s qo rawFilters =
      (Except.ok (Envelope.failure "Failed to execute Data Cloud query" msg
        (fallbackQuery qo) (cleanFilters rawFilters)),
       { dataCloudContext := none, authCalls := s.authCalls + 1 }) := by
  simp [executeQueryWithFilters, executeQuery, executeQueryResult,
        getDataCloudContext, hc, ha, errorEnvelope]

/-- Witness for the amended C1 at a concrete rejecting environment. -/
theorem claim_C1_witness :
    executeQueryWithFilters envAuthFail initialState qoStatic [] =
      (Except.ok (Envelope.failure "Failed to execute Data Cloud query"
        "auth denied" (fallbackQuery qoStatic) (cleanFilters [])),
       { dataCloudContext := none, authCalls := initialState.authCalls + 1 }) :=
  claim_C1_amended envAuthFail initialState qoStatic [] "auth denied" rfl rfl

/-- C2, counterexample: when the first authorize call rejects, nothing is
cached, so a second `executeQuery` call on the same instance invokes
authorize again — two sequential calls invoke it twice, contradicting
"at most once per instance" for every call sequence. -/
theorem claim_C2_counterexample :
    (runOps envAuthFail [Op.exec qoStatic [], Op.exec qoStatic []]
      initialState).authCalls = 2 := rfl

/-- C2 (amended): when the authorize call succeeds, it is invoked at most
once per instance across any sequence of getDataCloudContext /
executeQuery / executeQueryWithFilters / executeRawQuery calls — the
first call caches the context and later calls reuse it — and two
sequential `executeQuery` calls invoke authorize exactly once. -/
theorem claim_C2_amended (env : Env) (c : Ctx)
    (h : env.authorize = Except.ok c) :
    (∀ ops : List Op, (runOps env ops initialState).authCalls ≤ 1) ∧
    (∀ (qo1 qo2 : QueryObject) (f1 f2 : JsObj),
      (runOps env [Op.exec qo1 f1, Op.exec qo2 f2] initialState).authCalls = 1) := by
  have hinv : ∀ (ops : List Op) (s : ServiceState),
      ((s.dataCloudContext = none ∧ s.authCalls = 0) ∨
        (s.dataCloudContext = some c ∧ s.authCalls = 1)) →
      (((runOps env ops s).dataCloudContext = none ∧
          (runOps env ops s).authCalls = 0) ∨
        ((runOps env ops s).dataCloudContext = some c ∧
          (runOps env ops s).authCalls = 1)) := by
    intro ops
    induction ops with
    | nil => intro s hs; exact hs
    | cons op ops ih =>
        intro s hs
        have hstep : (((runOp env s op).dataCloudContext = none ∧
              (runOp env s op).authCalls = 0) ∨
            ((runOp env s op).dataCloudContext = some c ∧
              (runOp env s op).authCalls = 1)) := by
          rw [runOp_state]
          rcases hs with ⟨h1, h2⟩ | ⟨h1, h2⟩
          · right; simp [getDataCloudContext, h1, h, h2]
          · right; simp [getDataCloudContext, h1, h2]
        have hsteps : runOps env (op :: ops) s = runOps env ops (runOp env s op) := rfl
        rw [hsteps]
        exact ih _ hstep
  constructor
  · intro ops
    rcases hinv ops initialState (Or.inl ⟨rfl, rfl⟩) with ⟨_, h2⟩ | ⟨_, h2⟩ <;> omega
  · intro qo1 qo2 f1 f2
    have h1 : runOp env initialState (Op.exec qo1 f1) =
        { dataCloudContext := some c, authCalls := 1 } := by
      rw [runOp_state]; simp [getDataCloudContext, initialState, h]
    have h2 : runOp env { dataCloudContext := some c, authCalls := 1 }
        (Op.exec qo2 f2) = { dataCloudContext := some c, authCalls := 1 } := by
      rw [runOp_state]; simp [getDataCloudContext]
    show (runOps env [Op.exec qo1 f1, Op.exec qo2 f2] initialState).authCalls = 1
    simp [runOps, List.foldl, h1, h2]

/-- Witness for the amended C2 at a concrete succeeding environment. -/
theorem claim_C2_witness :
    (runOps envOk ([] : List Op) initialState).authCalls ≤ 1 ∧
    (runOps envOk [Op.exec qoStatic [], Op.exec qoStatic []]
      initialState).authCalls = 1 :=
  ⟨(claim_C2_amended envOk ctxStub rfl).1 [],
   (claim_C2_amended envOk ctxStub rfl).2 qoStatic qoStatic [] []⟩

/-- C3, counterexample: `escapeSqlString` does not apply the six
transformations after coercing a non-string input — it returns the bare
`String(value)` coercion.  An array whose string representation contains
a single quote is returned unescaped, so "coerce, then apply the six
transformations" fails. -/
theorem claim_C3_counterexample :
    unifiedB2BQuery.escapeSqlString (JsVal.arr [JsVal.str "a'b"]) = "a'b" ∧
    escapeSixSteps (jsToString (JsVal.arr [JsVal.str "a'b"])) = "a''b" ∧
    unifiedB2BQuery.escapeSqlString (JsVal.arr [JsVal.str "a'b"]) ≠
      escapeSixSteps (jsToString (JsVal.arr [JsVal.str "a'b"])) := by
  have hj : jsToString (JsVal.arr [JsVal.str "a'b"]) = "a'b" := by
    simp [jsToString, jsArrJoin, jsElem]
  have he : unifiedB2BQuery.escapeSqlString (JsVal.arr [JsVal.str "a'b"]) = "a'b" := by
    have hd : unifiedB2BQuery.escapeSqlString (JsVal.arr [JsVal.str "a'b"]) =
        jsToString (JsVal.arr [JsVal.str "a'b"]) := rfl
    rw [hd, hj]
  have hs : escapeSixSteps "a'b" = "a''b" := by decide
  refine ⟨he, by rw [hj]; exact hs, ?_⟩
  rw [he, hj, hs]
  decide

/-- C3 (amended): string input receives the six whole-string
transformations in source order — equivalently, the single
per-character substitution `escapeCharSpec` applied once to every
character, with the empty string mapping to the empty string — while
non-string input is coerced to its string representation and returned
without any of the six transformations. -/
theorem claim_C3_amended :
    (∀ s : String, unifiedB2BQuery.escapeSqlString (JsVal.str s) =
        String.mk (s.data.flatMap escapeCharSpec)) ∧
    (∀ n : Int, unifiedB2BQuery.escapeSqlString (JsVal.num n) =
        jsToString (JsVal.num n)) ∧
    (∀ b : Bool, unifiedB2BQuery.escapeSqlString (JsVal.bool b) =
        jsToString (JsVal.bool b)) ∧
    unifiedB2BQuery.escapeSqlString JsVal.null = jsToString JsVal.null ∧
    unifiedB2BQuery.escapeSqlString JsVal.undef = jsToString JsVal.undef ∧
    (∀ l : List JsVal, unifiedB2BQuery.escapeSqlString (JsVal.arr l) =
        jsToString (JsVal.arr l)) ∧
    unifiedB2BQuery.escapeSqlString (JsVal.str "") = "" := by
  refine ⟨?_, fun n => rfl, fun b => rfl, rfl, rfl, fun l => rfl, rfl⟩
  intro s
  show escapeSixSteps s = _
  rw [escapeSixSteps, escapeSteps_eq_flatMap]

set_option maxRecDepth 16384 in
/-- C4: for every truthy filter value, `buildQuery` embeds the escaped
value (never the raw one) in the WHERE condition for each of the three
supported keys; in particular an accountName of O'Reilly produces a
clause containing LIKE with the quote doubled. -/
theorem claim_C4 :
    (∀ v : JsVal, jsTruthy v = true →
      unifiedB2BQuery.buildQuery [("accountName", v)] =
        unifiedB2BQuery.baseSql ++ " WHERE " ++
          ("ssot__Name__c LIKE '%" ++ unifiedB2BQuery.escapeSqlString v ++ "%'") ++
          " LIMIT 100") ∧
    (∀ v : JsVal, jsTruthy v = true →
      unifiedB2BQuery.buildQuery [("accountSource", v)] =
        unifiedB2BQuery.baseSql ++ " WHERE " ++
          ("ssot__AccountSource__c = '" ++ unifiedB2BQuery.escapeSqlString v ++ "'") ++
          " LIMIT 100") ∧
    (∀ v : JsVal, jsTruthy v = true →
      unifiedB2BQuery.buildQuery [("segment", v)] =
        unifiedB2BQuery.baseSql ++ " WHERE " ++
          ("ssot__AccountTypeId__c = '" ++ unifiedB2BQuery.escapeSqlString v ++ "'") ++
          " LIMIT 100") ∧
    unifiedB2BQuery.escapeSqlString (JsVal.str "O'Reilly") = "O''Reilly" ∧
    unifiedB2BQuery.buildQuery [("accountName", JsVal.str "O'Reilly")] =
      unifiedB2BQuery.baseSql ++ " WHERE " ++
        ("ssot__Name__c LIKE '%" ++ "O''Reilly" ++ "%'") ++ " LIMIT 100" := by
  refine ⟨?_, ?_, ?_, by decide, by decide⟩
  all_goals intro v hv
  all_goals have hu : jsTruthy JsVal.undef = false := rfl
  all_goals simp [unifiedB2BQuery.buildQuery, jsGet, hv, hu, unifiedB2BQuery.joinAnd]

set_option maxRecDepth 16384 in
/-- Witness for C4 at a concrete truthy value. -/
theorem claim_C4_witness :
    jsTruthy (JsVal.str "O'Reilly") = true ∧
    unifiedB2BQuery.buildQuery [("accountName", JsVal.str "O'Reilly")] =
      unifiedB2BQuery.baseSql ++ " WHERE " ++
        ("ssot__Name__c LIKE '%" ++
          unifiedB2BQuery.escapeSqlString (JsVal.str "O'Reilly") ++ "%'") ++
        " LIMIT 100" :=
  ⟨by decide, claim_C4.1 (JsVal.str "O'Reilly") (by decide)⟩

/-- The list of WHERE conditions the spec prescribes for a filter object:
one condition per truthy key, in the fixed order accountName,
accountSource, segment, each with the escaped value. -/
def b2bConditionsSpec (filters : JsObj) : List String :=
  (if jsTruthy (jsGet filters "accountName") then
    ["ssot__Name__c LIKE '%" ++
      unifiedB2BQuery.escapeSqlString (jsGet filters "accountName") ++ "%'"]
  else []) ++
  (if jsTruthy (jsGet filters "accountSource") then
    ["ssot__AccountSource__c = '" ++
      unifiedB2BQuery.escapeSqlString (jsGet filters "accountSource") ++ "'"]
  else []) ++
  (if jsTruthy (jsGet filters "segment") then
    ["ssot__AccountTypeId__c = '" ++
      unifiedB2BQuery.escapeSqlString (jsGet filters "segment") ++ "'"]
  else [])

/-- The WHERE clause the spec prescribes: absent when there are zero
conditions, else the conditions joined with " AND ". -/
def whereClauseSpec (filters : JsObj) : String :=
  match b2bConditionsSpec filters with
  | [] => ""
  | conds => " WHERE " ++ unifiedB2BQuery.joinAnd conds

/-- C5: `buildQuery` always produces baseSql, then the WHERE clause built
from the truthy keys in fixed order joined with " AND " (absent when no
condition applies), then " LIMIT 100"; with no filters the result is
baseSql ++ " LIMIT 100". -/
theorem claim_C5 (filters : JsObj) :
    unifiedB2BQuery.buildQuery filters =
      unifiedB2BQuery.baseSql ++ whereClauseSpec filters ++ " LIMIT 100" ∧
    unifiedB2BQuery.buildQuery [] =
      unifiedB2BQuery.baseSql ++ " LIMIT 100" := by
  constructor
  · unfold unifiedB2BQuery.buildQuery whereClauseSpec b2bConditionsSpec
    split_ifs <;>
      simp [unifiedB2BQuery.joinAnd, strAppendAssoc, strAppendEmpty]
  · rfl

/-- C6: `cleanFilters` keeps exactly the entries whose value is neither
`undefined` nor `null` nor the empty string (so 0, false, non-empty
values and the empty array are all retained), as a pure function of its
input; the spec's concrete eight-key example evaluates as stated. -/
theorem claim_C6 :
    (∀ (filters : JsObj) (k : String) (v : JsVal),
      (k, v) ∈ cleanFilters filters ↔
        ((k, v) ∈ filters ∧ v ≠ JsVal.undef ∧ v ≠ JsVal.null ∧
          v ≠ JsVal.str "")) ∧
    cleanFilters
      [("a", JsVal.str "x"), ("b", JsVal.str ""), ("c", JsVal.null),
        ("d", JsVal.undef), ("e", JsVal.num 0), ("f", JsVal.bool false),
        ("g", JsVal.arr []), ("h", JsVal.arr [JsVal.str "y"])] =
      [("a", JsVal.str "x"), ("e", JsVal.num 0), ("f", JsVal.bool false),
        ("g", JsVal.arr []), ("h", JsVal.arr [JsVal.str "y"])] := by
  constructor
  · intro filters k v
    rw [cleanFilters, List.mem_filter]
    exact and_congr_right fun _ => keepFilterValue_iff v
  · rfl

/-- C7: every success envelope satisfies records.length = totalRecords
and carries exactly the filters the query ran with; for
`executeQueryWithFilters` those are exactly the cleaned filters, which
contain no entry whose value is `undefined`, `null` or the empty
string. -/
theorem claim_C7 :
    (∀ (env : Env) (s : ServiceState) (qo : QueryObject) (filters : JsObj)
        (recs : List JsVal) (total : Nat) (q : String) (fil : JsObj)
        (t : String) (s2 : ServiceState),
      executeQuery env s qo filters =
          (Except.ok (Envelope.success recs total q fil t), s2) →
      recs.length = total ∧ fil = filters) ∧
    (∀ (env : Env) (s : ServiceState) (qo : QueryObject) (rawFilters : JsObj)
        (recs : List JsVal) (total : Nat) (q : String) (fil : JsObj)
        (t : String) (s2 : ServiceState),
      executeQueryWithFilters env s qo rawFilters =
          (Except.ok (Envelope.success recs total q fil t), s2) →
      fil = cleanFilters rawFilters ∧
      ∀ p : String × JsVal, p ∈ fil →
        p.2 ≠ JsVal.undef ∧ p.2 ≠ JsVal.null ∧ p.2 ≠ JsVal.str "") := by
  have main : ∀ (env : Env) (s : ServiceState) (qo : QueryObject)
      (filters : JsObj) (recs : List JsVal) (total : Nat) (q : String)
      (fil : JsObj) (t : String) (s2 : ServiceState),
      executeQuery env s qo filters =
          (Except.ok (Envelope.success recs total q fil t), s2) →
      recs.length = total ∧ fil = filters := by
    intro env s qo filters recs total q fil t s2 h
    have h1 : executeQueryResult env (getDataCloudContext env s).1 qo filters =
        Except.ok (Envelope.success recs total q fil t) := congrArg Prod.fst h
    unfold executeQueryResult at h1
    split at h1
    · simp [errorEnvelope] at h1
    · split at h1
      · simp [errorEnvelope] at h1
      · split at h1
        · simp [errorEnvelope] at h1
        · split at h1
          · simp [errorEnvelope] at h1
          · simp only [Except.ok.injEq, Envelope.success.injEq] at h1
            obtain ⟨hrec, htot, hq, hfil, hnow⟩ := h1
            subst hrec
            exact ⟨htot, hfil.symm⟩
  refine ⟨main, ?_⟩
  intro env s qo rawFilters recs total q fil t s2 h
  obtain ⟨_, hfil⟩ :=
    main env s qo (cleanFilters rawFilters) recs total q fil t s2 h
  refine ⟨hfil, ?_⟩
  intro p hp
  rw [hfil] at hp
  rw [cleanFilters, List.mem_filter] at hp
  exact (keepFilterValue_iff p.2).mp hp.2

/-- Witness for C7 at a concrete successful execution. -/
theorem claim_C7_witness :
    ([JsVal.arr [JsVal.str "A"]] : List JsVal).length = 1 ∧
    (([] : JsObj) = cleanFilters [("b", JsVal.str "")] ∧
      ∀ p : String × JsVal, p ∈ ([] : JsObj) →
        p.2 ≠ JsVal.undef ∧ p.2 ≠ JsVal.null ∧ p.2 ≠ JsVal.str "") :=
  ⟨(claim_C7.1 envOk initialState qoStatic [] [JsVal.arr [JsVal.str "A"]] 1
      "SELECT 1" [] "2024-01-01T00:00:00.000Z"
      { dataCloudContext := some ctxStub, authCalls := 1 } rfl).1,
   claim_C7.2 envOk initialState qoStatic [("b", JsVal.str "")]
      [JsVal.arr [JsVal.str "A"]] 1 "SELECT 1" [] "2024-01-01T00:00:00.000Z"
      { dataCloudContext := some ctxStub, authCalls := 1 } rfl⟩

/-- C8: `executeQuery` never rejects, and for every failure local to
query resolution, execution, or transformation it resolves with the
envelope whose error is the fixed text, whose message is the caught
error's message, and whose query is the fallback query (the no-argument
`buildQuery()` result when `buildQuery` exists, the literal text
`Query build failed` when that call itself throws, else a truthy
`sql`). -/
theorem claim_C8 :
    (∀ (env : Env) (s : ServiceState) (qo : QueryObject) (filters : JsObj),
      ∃ envl : Envelope, (executeQuery env s qo filters).1 = Except.ok envl) ∧
    (∀ (env : Env) (s : ServiceState) (ctx : Ctx) (qo : QueryObject)
        (filters : JsObj) (m : String),
      (getDataCloudContext env s).1 = Except.ok ctx →
      localPipelineError ctx qo filters = some m →
      (executeQuery env s qo filters).1 =
        Except.ok (Envelope.failure "Failed to execute Data Cloud query" m
          (fallbackQuery qo) filters)) := by
  constructor
  · intro env s qo filters
    exact executeQueryResult_isOk env (getDataCloudContext env s).1 qo filters
  · intro env s ctx qo filters m hctx hloc
    show executeQueryResult env (getDataCloudContext env s).1 qo filters = _
    rw [hctx]
    unfold localPipelineError at hloc
    rcases hq : resolveQuery qo filters with m2 | q
    · simp only [hq, Option.some.injEq] at hloc
      subst hloc
      simp [executeQueryResult, hq, errorEnvelope]
    · simp only [hq] at hloc
      rcases hx : ctx.query q with m2 | rd
      · simp only [hx, Option.some.injEq] at hloc
        subst hloc
        simp [executeQueryResult, hq, hx, errorEnvelope]
      · simp only [hx] at hloc
        rcases ht : qo.transform (rd.getD []) with m2 | recs
        · simp only [ht, Option.some.injEq] at hloc
          subst hloc
          simp [executeQueryResult, hq, hx, ht, errorEnvelope]
        · simp only [ht] at hloc
          exact absurd hloc (by simp)

/-- Witness for C8 at a concrete rejecting query call. -/
theorem claim_C8_witness :
    (executeQuery envBoom initialState qoStatic []).1 =
      Except.ok (Envelope.failure "Failed to execute Data Cloud query" "boom"
        (fallbackQuery qoStatic) []) :=
  claim_C8.2 envBoom initialState ctxBoom qoStatic [] "boom" rfl rfl

/-- C9: both transforms are pure order-preserving 1:1 mappings — output
length equals input length and the i-th output row is derived from the
i-th input row — and `unifiedB2BQuery.transform` maps positions 0..7 of
each row to name, number, accountSource, accountTypeId, createdDate,
lastModifiedDate, parentAccountId, id in that exact order, as on the
spec's concrete example row. -/
theorem claim_C9 :
    (∀ records, (unifiedB2BQuery.transform records).length = records.length) ∧
    (∀ (records : List (List JsVal)) (i : Nat),
        (unifiedB2BQuery.transform records)[i]? =
        records[i]?.map (fun record =>
          unifiedB2BQuery.B2BRecord.mk (jsIdx record 0) (jsIdx record 1)
            (jsIdx record 2) (jsIdx record 3) (jsIdx record 4)
            (jsIdx record 5) (jsIdx record 6) (jsIdx record 7))) ∧
    (∀ records, (userEngagementQuery.transform records).length = records.length) ∧
    (∀ (records : List (List JsVal)) (i : Nat),
        (userEngagementQuery.transform records)[i]? =
        records[i]?.map (fun record =>
          userEngagementQuery.EngagementRecord.mk (jsIdx record 0)
            (jsIdx record 1) (jsIdx record 2) (jsIdx record 3)
            (jsIdx record 4))) ∧
    unifiedB2BQuery.transform
      [[JsVal.str "A", JsVal.str "1", JsVal.str "Web", JsVal.str "T1",
        JsVal.str "d1", JsVal.str "d2", JsVal.str "P1", JsVal.str "ID1"]] =
      [{ name := JsVal.str "A", number := JsVal.str "1",
         accountSource := JsVal.str "Web", accountTypeId := JsVal.str "T1",
         createdDate := JsVal.str "d1", lastModifiedDate := JsVal.str "d2",
         parentAccountId := JsVal.str "P1", id := JsVal.str "ID1" }] := by
  refine ⟨fun records => ?_, fun records i => ?_, fun records => ?_,
    fun records i => ?_, rfl⟩
  · simp [unifiedB2BQuery.transform]
  · simp [unifiedB2BQuery.transform, List.getElem?_map]
  · simp [userEngagementQuery.transform]
  · simp [userEngagementQuery.transform, List.getElem?_map]

/-- C10: for a query object with neither a `sql` property nor a
`buildQuery` function, the error envelope's query field is absent
(`undefined`), not the text `Query build failed`, because the fallback
computation assigns nothing and throws nothing. -/
theorem claim_C10 (env : Env) (s : ServiceState) (filters : JsObj)
    (qo : QueryObject) (hb : qo.buildQuery = none) (hsql : qo.sql = none) :
    ∃ m : String, executeQuery env s qo filters =
      (Except.ok (Envelope.failure "Failed to execute Data Cloud query" m
        none filters),
       (getDataCloudContext env s).2) := by
  have hfb : fallbackQuery qo = none := by
    unfold fallbackQuery
    simp [hb, hsql, sqlTruthy]
  rcases hc : (getDataCloudContext env s).1 with e | ctx
  · refine ⟨e, ?_⟩
    show (executeQueryResult env (getDataCloudContext env s).1 qo filters,
      (getDataCloudContext env s).2) = _
    rw [hc]
    simp [executeQueryResult, errorEnvelope, hfb]
  · refine ⟨"Query object must have either sql property or buildQuery method", ?_⟩
    have hq : resolveQuery qo filters =
        Except.error "Query object must have either sql property or buildQuery method" := by
      unfold resolveQuery
      simp [hb, hsql, sqlTruthy]
    show (executeQueryResult env (getDataCloudContext env s).1 qo filters,
      (getDataCloudContext env s).2) = _
    rw [hc]
    simp [executeQueryResult, hq, errorEnvelope, hfb]

/-- Witness for C10 at a concrete bare query object. -/
theorem claim_C10_witness :
    ∃ m : String, executeQuery envOk initialState qoBare [] =
      (Except.ok (Envelope.failure "Failed to execute Data Cloud query" m
        none []),
       (getDataCloudContext envOk initialState).2) :=
  claim_C10 envOk initialState [] qoBare rfl rfl
